import Mathlib

/-!
Shallow embedding of the HttpGameStateServer module (HttpGameStateServer.h)
of the mod-game-state-api repository, together with proofs settling the
frozen claims about its natural-language specification.

The embedding mirrors the C++ source: the httplib server object, the CORS
pre-routing handlers, the route table, the ten request handlers, the
start/stop lifecycle, and the host-metrics sampler with its static peak
and previous-counter state.  External collaborators (player lookup, JSON
shaping, uptime) are modelled as an environment record whose fallible
calls return Except values; an uncaught exception is an Except.error that
escapes a handler.
-/

namespace GameStateAPI

/-- Minimal JSON value model, enough for the bodies this module builds. -/
inductive Json where
  | str : String → Json
  | int : Int → Json
  | rat : ℚ → Json
  | bool : Bool → Json
  | arr : List Json → Json
  | obj : List (String × Json) → Json

/-- An httplib response: status code, headers (a multimap modelled as an
append-only association list, as set_header emplaces), content type and a
parsed view of the JSON body. -/
structure Response where
  status : Nat
  headers : List (String × String)
  contentType : Option String
  body : Option Json

/-- httplib Response.set_header: appends a header pair. -/
def setHeader (res : Response) (k v : String) : Response :=
  { res with headers := res.headers ++ [(k, v)] }

/-- Look a key up in the JSON object body of a response. -/
def Response.bodyLookup (res : Response) (k : String) : Option Json :=
  match res.body with
  | some (Json.obj fields) => fields.lookup k
  | _ => none

/-- The response object handed to the pre-routing hook: no headers, no body. -/
def emptyResponse : Response :=
  { status := 0, headers := [], contentType := none, body := none }

/-- Construction-time configuration: bind host, bind port, allowed CORS origin. -/
structure Cfg where
  host : String
  port : Nat
  allowedOrigin : String

/-- SetCorsHeaders (source lines 567-573): configured origin, methods,
headers allow-list including X-Requested-With, and a 24h preflight max age. -/
def SetCorsHeaders (allowedOrigin : String) (res : Response) : Response :=
  setHeader
    (setHeader
      (setHeader
        (setHeader res "Access-Control-Allow-Origin" allowedOrigin)
        "Access-Control-Allow-Methods" "GET, POST, PUT, DELETE, OPTIONS")
      "Access-Control-Allow-Headers" "Content-Type, Authorization, X-Requested-With")
    "Access-Control-Max-Age" "86400"

/-- The second pre-routing lambda (source lines 141-146): wildcard origin,
methods, and a shorter headers allow-list; no max-age. -/
def corsWildcard (res : Response) : Response :=
  setHeader
    (setHeader
      (setHeader res "Access-Control-Allow-Origin" "*")
      "Access-Control-Allow-Methods" "GET, POST, PUT, DELETE, OPTIONS")
    "Access-Control-Allow-Headers" "Content-Type, Authorization"

/-- The part of an httplib Server object whose configuration the constructor
mutates and that the claims depend on: the single pre-routing handler slot. -/
structure ServerObj where
  preRouting : Option (Response → Response)

/-- httplib Server.set_pre_routing_handler: assigns the single slot, so a
second call replaces the first handler. -/
def set_pre_routing_handler (s : ServerObj) (h : Response → Response) : ServerObj :=
  { s with preRouting := some h }

/-- The HttpGameStateServer constructor effect on the pre-routing slot: it
calls set_pre_routing_handler first with SetCorsHeaders over the configured
origin (line 88) and then again with the wildcard lambda (line 141). -/
def mkServer (cfg : Cfg) : ServerObj :=
  let s : ServerObj := { preRouting := none }
  let s := set_pre_routing_handler s (SetCorsHeaders cfg.allowedOrigin)
  let s := set_pre_routing_handler s corsWildcard
  s

/-- The pre-routing hook actually installed after construction. -/
def preRoutingOf (cfg : Cfg) : Response → Response :=
  match (mkServer cfg).preRouting with
  | some h => h
  | none => id

/-- An inbound HTTP request: method, path, query parameters (insertion
ordered multimap) and the first regex capture filled in by the router. -/
structure Request where
  method : String
  path : String
  params : List (String × String)
  matches1 : String

/-- httplib Request.has_param. -/
def has_param (req : Request) (k : String) : Bool :=
  (req.params.lookup k).isSome

/-- httplib Request.get_param_value: first value for the key, empty string
when absent. -/
def get_param_value (req : Request) (k : String) : String :=
  (req.params.lookup k).getD ""

/-- Does the first list start with the second one? -/
def listStartsWith : List Char → List Char → Bool
  | _, [] => true
  | [], _ :: _ => false
  | c :: cs, p :: ps => c == p && listStartsWith cs ps

/-- Does pat occur as a contiguous run somewhere in the list? -/
def listHasRun (pat : List Char) : List Char → Bool
  | [] => listStartsWith [] pat
  | c :: cs => listStartsWith (c :: cs) pat || listHasRun pat cs

/-- Models the C++ test std::string::find(pat) != npos: pat occurs
somewhere in hay. -/
def strContains (hay pat : String) : Bool :=
  listHasRun pat.toList hay.toList

/-- SendJsonResponse (source lines 575-579): set status and content type,
write the body. -/
def SendJsonResponse (res : Response) (body : Json) (status : optParam Nat 200) : Response :=
  { res with status := status, contentType := some "application/json", body := some body }

/-- SendErrorResponse (source lines 581-588): wrap the message into an
object with the current Unix time and delegate to SendJsonResponse.  The
C++ function reads std::time itself; here the clock value is a parameter. -/
def SendErrorResponse (now : Int) (res : Response) (message : String)
    (status : optParam Nat 400) : Response :=
  SendJsonResponse res (Json.obj [("error", Json.str message), ("timestamp", Json.int now)]) status

/-- A live player as the handlers observe it: only IsInWorld matters. -/
structure Player where
  inWorld : Bool

/-- Parsed cumulative counters of the first cpu line of /proc/stat. -/
structure StatCounters where
  user : Nat
  nice : Nat
  system : Nat
  idle : Nat
  iowait : Nat
  irq : Nat
  softirq : Nat
  steal : Nat

/-- One line of /proc/meminfo as the sscanf loop classifies it. -/
inductive MemLine where
  | memTotal (kB : Nat) : MemLine
  | memAvailable (kB : Nat) : MemLine
  | other : MemLine

/-- One observation of the host OS for a HandleHostInfo call: sysinfo
uptime (none when sysinfo fails), the readable lines of /proc/meminfo
(none when the file does not open), the parsed first line of /proc/stat
(none when the file does not open or fewer than four fields scan), and the
wall clock. -/
structure HostSample where
  sysinfoUptime : Option Int
  meminfo : Option (List MemLine)
  stat : Option StatCounters
  now : Int

/-- External collaborators and ambient effects used by the handlers.
Fallible calls return Except String; an Except.error models a thrown
exception. -/
structure Env where
  findPlayerByName : String → Option Player
  getPlayerData : Player → Bool → Except String Json
  getPlayerStats : Player → Except String Json
  getPlayerEquipment : Player → Except String Json
  getPlayerSkills : Player → Except String Json
  getPlayerSkillsFull : Player → Except String Json
  getPlayerQuests : Player → Except String Json
  getServerData : Except String Json
  getAllPlayersData : Bool → Except String (List Json)
  getUptime : Except String Int
  hostSample : Except String HostSample
  now : Int

/-- Two to the 64: unsigned long long arithmetic wraps modulo this. -/
def U64 : Nat := 18446744073709551616

/-- Unsigned 64-bit subtraction a - b with wraparound. -/
def u64sub (a b : Nat) : Nat :=
  (a % U64 + (U64 - b % U64)) % U64

/-- The function-local static state of HandleHostInfo: peak trackers
(source lines 233-235) and the previous cpu counters with the first-call
flag (source lines 329-330).  It lives for the whole process. -/
structure HostState where
  peakCpu : ℚ
  peakMem : Nat
  prevTotal : Nat
  prevIdle : Nat
  firstCall : Bool

/-- std::round: round to nearest integer, halves away from zero. -/
def roundAway (q : ℚ) : Int :=
  if 0 ≤ q then ⌊q + 1/2⌋ else -⌊1/2 - q⌋

/-- std::round(x * 100.0) / 100.0: round to two decimal places. -/
def round2 (q : ℚ) : ℚ :=
  (roundAway (q * 100) : ℚ) / 100

/-- The meminfo sscanf loop (source lines 312-320): later matching lines
overwrite earlier values; values are kB scaled by 1024 with unsigned wrap. -/
def scanMeminfo (lines : List MemLine) : Nat × Nat :=
  lines.foldl
    (fun acc l =>
      match l with
      | MemLine.memTotal v => ((v * 1024) % U64, acc.2)
      | MemLine.memAvailable v => (acc.1, (v * 1024) % U64)
      | MemLine.other => acc)
    (0, 0)

/-- Pair of memTotal and memAvailable in bytes; both zero when the file is
closed. -/
def readMem (mi : Option (List MemLine)) : Nat × Nat :=
  match mi with
  | none => (0, 0)
  | some lines => scanMeminfo lines

/-- The cpu delta computation of HandleHostInfo (source lines 339-363):
first call records the counters and reports 0; later calls report the
rounded delta-based utilization and update the counters. -/
def computeCpu (st : HostState) (c : StatCounters) : ℚ × HostState :=
  let totalIdle := (c.idle + c.iowait) % U64
  let total :=
    (c.user + c.nice + c.system + c.idle + c.iowait + c.irq + c.softirq + c.steal) % U64
  if st.firstCall then
    (0, { st with prevTotal := total, prevIdle := totalIdle, firstCall := false })
  else
    let totalDiff := u64sub total st.prevTotal
    let idleDiff := u64sub totalIdle st.prevIdle
    let raw : ℚ :=
      if 0 < totalDiff then (1 - (idleDiff : ℚ) / (totalDiff : ℚ)) * 100 else 0
    (round2 raw, { st with prevTotal := total, prevIdle := totalIdle })

/-- Cpu reading including the unreadable-file case, where the usage stays
at its initial 0.0 and the static counters are untouched. -/
def readCpu (st : HostState) (stat : Option StatCounters) : ℚ × HostState :=
  match stat with
  | none => (0, st)
  | some c => computeCpu st c

/-- The body of the try block in HandleHostInfo with a successfully taken
host sample (Linux path, source lines 292-385): build the response and
update the static peaks. -/
def sampleHost (st : HostState) (s : HostSample) (res : Response) : HostState × Response :=
  let up : Int :=
    match s.sysinfoUptime with
    | some u => u
    | none => 0
  let mem := readMem s.meminfo
  let currentMem := u64sub mem.1 mem.2
  let cp := readCpu st s.stat
  let currentCpu := cp.1
  let st1 := cp.2
  let peakCpu1 := if st1.peakCpu < currentCpu then currentCpu else st1.peakCpu
  let peakMem1 := if st1.peakMem < currentMem then currentMem else st1.peakMem
  let st2 := { st1 with peakCpu := peakCpu1, peakMem := peakMem1 }
  let body := Json.obj
    [("uptime_seconds", Json.int up),
     ("total_mem", Json.int (Int.ofNat mem.1)),
     ("current_cpu", Json.rat currentCpu),
     ("max_cpu", Json.rat peakCpu1),
     ("current_mem", Json.int (Int.ofNat currentMem)),
     ("max_mem", Json.int (Int.ofNat peakMem1)),
     ("timestamp", Json.int s.now)]
  (st2, SendJsonResponse res body 200)

/-- HandleHostInfo (source lines 231-393): the whole computation sits in a
try/catch whose catch degrades to a 500 response with an error/status body. -/
def HandleHostInfo (st : HostState) (inp : Except String HostSample)
    (res : Response) : HostState × Response :=
  match inp with
  | Except.ok s => sampleHost st s res
  | Except.error _ =>
      (st, SendJsonResponse res
        (Json.obj [("error", Json.str "Internal server error"), ("status", Json.int 500)]) 500)

/-- HandleHealthCheck (source lines 220-229): no try/catch, so a fault in
the uptime collaborator escapes the handler. -/
def HandleHealthCheck (env : Env) (_req : Request) (res : Response) :
    Except String Response :=
  match env.getUptime with
  | Except.error e => Except.error e
  | Except.ok u =>
      Except.ok (SendJsonResponse res
        (Json.obj [("status", Json.str "ok"), ("timestamp", Json.int env.now),
                   ("uptime_seconds", Json.int u)]) 200)

/-- HandleServerInfo (source lines 395-408): try/catch around the
collaborator call, degrading to a 500 error/status body. -/
def HandleServerInfo (env : Env) (_req : Request) (res : Response) :
    Except String Response :=
  match env.getServerData with
  | Except.error _ =>
      Except.ok (SendJsonResponse res
        (Json.obj [("error", Json.str "Internal server error"), ("status", Json.int 500)]) 500)
  | Except.ok serverData => Except.ok (SendJsonResponse res serverData 200)

/-- HandleOnlinePlayers (source lines 410-432): equipment flag requires the
parameter to be present and exactly the string true; try/catch present. -/
def HandleOnlinePlayers (env : Env) (req : Request) (res : Response) :
    Except String Response :=
  let includeEquipment := has_param req "equipment" && (get_param_value req "equipment" == "true")
  match env.getAllPlayersData includeEquipment with
  | Except.error _ =>
      Except.ok (SendJsonResponse res
        (Json.obj [("error", Json.str "Internal server error"), ("status", Json.int 500)]) 500)
  | Except.ok playersData =>
      Except.ok (SendJsonResponse res
        (Json.obj [("count", Json.int (Int.ofNat playersData.length)),
                   ("players", Json.arr playersData)]) 200)

/-- HandlePlayerInfo (source lines 434-460): empty capture gives 400,
missing or out-of-world player gives 404; the include flag only needs the
substring equipment somewhere in the value; no try/catch. -/
def HandlePlayerInfo (env : Env) (req : Request) (res : Response) :
    Except String Response :=
  let playerName := req.matches1
  if playerName = "" then
    Except.ok (SendErrorResponse env.now res "Player name is required" 400)
  else
    match env.findPlayerByName playerName with
    | none => Except.ok (SendErrorResponse env.now res "Player not found or not online" 404)
    | some player =>
      if player.inWorld = false then
        Except.ok (SendErrorResponse env.now res "Player not found or not online" 404)
      else
        let includeEquipment :=
          has_param req "include" && strContains (get_param_value req "include") "equipment"
        match env.getPlayerData player includeEquipment with
        | Except.error e => Except.error e
        | Except.ok playerJson => Except.ok (SendJsonResponse res playerJson 200)

/-- HandlePlayerStats (source lines 462-481): same validation, no try/catch. -/
def HandlePlayerStats (env : Env) (req : Request) (res : Response) :
    Except String Response :=
  let playerName := req.matches1
  if playerName = "" then
    Except.ok (SendErrorResponse env.now res "Player name is required" 400)
  else
    match env.findPlayerByName playerName with
    | none => Except.ok (SendErrorResponse env.now res "Player not found or not online" 404)
    | some player =>
      if player.inWorld = false then
        Except.ok (SendErrorResponse env.now res "Player not found or not online" 404)
      else
        match env.getPlayerStats player with
        | Except.error e => Except.error e
        | Except.ok statsJson => Except.ok (SendJsonResponse res statsJson 200)

/-- HandlePlayerEquipment (source lines 483-502). -/
def HandlePlayerEquipment (env : Env) (req : Request) (res : Response) :
    Except String Response :=
  let playerName := req.matches1
  if playerName = "" then
    Except.ok (SendErrorResponse env.now res "Player name is required" 400)
  else
    match env.findPlayerByName playerName with
    | none => Except.ok (SendErrorResponse env.now res "Player not found or not online" 404)
    | some player =>
      if player.inWorld = false then
        Except.ok (SendErrorResponse env.now res "Player not found or not online" 404)
      else
        match env.getPlayerEquipment player with
        | Except.error e => Except.error e
        | Except.ok equipmentJson => Except.ok (SendJsonResponse res equipmentJson 200)

/-- HandlePlayerSkills (source lines 504-523). -/
def HandlePlayerSkills (env : Env) (req : Request) (res : Response) :
    Except String Response :=
  let playerName := req.matches1
  if playerName = "" then
    Except.ok (SendErrorResponse env.now res "Player name is required" 400)
  else
    match env.findPlayerByName playerName with
    | none => Except.ok (SendErrorResponse env.now res "Player not found or not online" 404)
    | some player =>
      if player.inWorld = false then
        Except.ok (SendErrorResponse env.now res "Player not found or not online" 404)
      else
        match env.getPlayerSkills player with
        | Except.error e => Except.error e
        | Except.ok skillsJson => Except.ok (SendJsonResponse res skillsJson 200)

/-- HandlePlayerSkillsFull (source lines 525-544). -/
def HandlePlayerSkillsFull (env : Env) (req : Request) (res : Response) :
    Except String Response :=
  let playerName := req.matches1
  if playerName = "" then
    Except.ok (SendErrorResponse env.now res "Player name is required" 400)
  else
    match env.findPlayerByName playerName with
    | none => Except.ok (SendErrorResponse env.now res "Player not found or not online" 404)
    | some player =>
      if player.inWorld = false then
        Except.ok (SendErrorResponse env.now res "Player not found or not online" 404)
      else
        match env.getPlayerSkillsFull player with
        | Except.error e => Except.error e
        | Except.ok skillsFullJson => Except.ok (SendJsonResponse res skillsFullJson 200)

/-- HandlePlayerQuests (source lines 546-565). -/
def HandlePlayerQuests (env : Env) (req : Request) (res : Response) :
    Except String Response :=
  let playerName := req.matches1
  if playerName = "" then
    Except.ok (SendErrorResponse env.now res "Player name is required" 400)
  else
    match env.findPlayerByName playerName with
    | none => Except.ok (SendErrorResponse env.now res "Player not found or not online" 404)
    | some player =>
      if player.inWorld = false then
        Except.ok (SendErrorResponse env.now res "Player not found or not online" 404)
      else
        match env.getPlayerQuests player with
        | Except.error e => Except.error e
        | Except.ok questsJson => Except.ok (SendJsonResponse res questsJson 200)

/-- Tags naming the ten GET routes registered in the constructor. -/
inductive RouteTag where
  | health | server | host | players
  | playerInfo | playerStats | playerEquipment
  | playerSkills | playerSkillsFull | playerQuests
deriving DecidableEq

/-- Strip an exact leading run from a list, if present. -/
def dropRun : List Char → List Char → Option (List Char)
  | [], rest => some rest
  | _ :: _, [] => none
  | p :: ps, c :: cs => if p = c then dropRun ps cs else none

/-- Strip an exact trailing run from a list, if present. -/
def dropTailRun (tail l : List Char) : Option (List Char) :=
  match dropRun tail.reverse l.reverse with
  | some r => some r.reverse
  | none => none

/-- Full-match semantics of the route regex /api/player/([^\x2f]+)sfx: the
path decomposes as the fixed head, a nonempty slash-free capture, and the
fixed suffix. -/
def matchPlayerRoute (sfx : String) (path : String) : Option String :=
  match dropRun "/api/player/".toList path.toList with
  | none => none
  | some rest =>
    match dropTailRun sfx.toList rest with
    | none => none
    | some nameCs =>
      if nameCs = [] then none
      else if nameCs.contains '/' then none
      else some (String.mk nameCs)

/-- The GET route table in registration order (constructor lines 100-138)
with first-match-wins dispatch, returning the handler tag and the capture. -/
def routeGet (path : String) : Option (RouteTag × String) :=
  if path = "/api/health" then some (RouteTag.health, "")
  else if path = "/api/server" then some (RouteTag.server, "")
  else if path = "/api/host" then some (RouteTag.host, "")
  else if path = "/api/players" then some (RouteTag.players, "")
  else
    match matchPlayerRoute "" path with
    | some n => some (RouteTag.playerInfo, n)
    | none =>
      match matchPlayerRoute "/stats" path with
      | some n => some (RouteTag.playerStats, n)
      | none =>
        match matchPlayerRoute "/equipment" path with
        | some n => some (RouteTag.playerEquipment, n)
        | none =>
          match matchPlayerRoute "/skills" path with
          | some n => some (RouteTag.playerSkills, n)
          | none =>
            match matchPlayerRoute "/skills-full" path with
            | some n => some (RouteTag.playerSkillsFull, n)
            | none =>
              match matchPlayerRoute "/quests" path with
              | some n => some (RouteTag.playerQuests, n)
              | none => none

/-- The httplib process boundary: an exception escaping a handler is caught
by the library, which keeps the response built so far and sets status 500. -/
def runCatch (fallback : Response) (x : Except String Response) : Response :=
  match x with
  | Except.ok r => r
  | Except.error _ => { fallback with status := 500 }

/-- One full request/response cycle through the server: pre-routing hook,
then the OPTIONS wildcard or the GET route table, default 404 otherwise.
Returns the possibly updated host-metrics static state with the response. -/
def processRequest (cfg : Cfg) (env : Env) (st : HostState) (req : Request) :
    HostState × Response :=
  let res1 := preRoutingOf cfg emptyResponse
  if req.method = "OPTIONS" then
    (st, { SetCorsHeaders cfg.allowedOrigin res1 with status := 200 })
  else if req.method = "GET" then
    match routeGet req.path with
    | none => (st, { res1 with status := 404 })
    | some (tag, cap) =>
      let req1 := { req with matches1 := cap }
      match tag with
      | RouteTag.health => (st, runCatch res1 (HandleHealthCheck env req1 res1))
      | RouteTag.server => (st, runCatch res1 (HandleServerInfo env req1 res1))
      | RouteTag.host => HandleHostInfo st env.hostSample res1
      | RouteTag.players => (st, runCatch res1 (HandleOnlinePlayers env req1 res1))
      | RouteTag.playerInfo => (st, runCatch res1 (HandlePlayerInfo env req1 res1))
      | RouteTag.playerStats => (st, runCatch res1 (HandlePlayerStats env req1 res1))
      | RouteTag.playerEquipment => (st, runCatch res1 (HandlePlayerEquipment env req1 res1))
      | RouteTag.playerSkills => (st, runCatch res1 (HandlePlayerSkills env req1 res1))
      | RouteTag.playerSkillsFull => (st, runCatch res1 (HandlePlayerSkillsFull env req1 res1))
      | RouteTag.playerQuests => (st, runCatch res1 (HandlePlayerQuests env req1 res1))
  else
    (st, { res1 with status := 404 })

/-- Lifecycle state: the atomic running flag and whether the background
listener thread is live (spawned and not yet joined). -/
structure SrvState where
  running : Bool
  threadActive : Bool

/-- IsRunning: lock-free read of the atomic flag. -/
def IsRunning (st : SrvState) : Bool :=
  st.running

/-- Start (source lines 154-195) as an atomic step over the interleaving
with the spawned thread: already running returns false with no change;
otherwise the thread stores running := true and listens.  The parameter
bindOk tells whether the bind/listen succeeds; on failure the thread
stores running := false and Start joins it and returns false. -/
def start (_cfg : Cfg) (bindOk : Bool) (st : SrvState) : Bool × SrvState :=
  if st.running then (false, st)
  else if bindOk then (true, { running := true, threadActive := true })
  else (false, { running := false, threadActive := false })

/-- Stop (source lines 197-218): no-op when not running; otherwise close
the listener, join the thread, and store running := false. -/
def stop (st : SrvState) : SrvState :=
  if st.running = false then st
  else { running := false, threadActive := false }

/-- Process-wide module state: lifecycle state plus the static
host-metrics state, which Start and Stop never touch. -/
structure ModuleState where
  srv : SrvState
  hostMetrics : HostState

/-- Start lifted to the whole module state. -/
def startM (cfg : Cfg) (bindOk : Bool) (m : ModuleState) : Bool × ModuleState :=
  let r := start cfg bindOk m.srv
  (r.1, { m with srv := r.2 })

/-- Stop lifted to the whole module state. -/
def stopM (m : ModuleState) : ModuleState :=
  { m with srv := stop m.srv }

/-- The host-metrics state transition of one HandleHostInfo call. -/
def stepHost (st : HostState) (s : HostSample) : HostState :=
  (sampleHost st s emptyResponse).1

/-- The six player-scoped endpoint handlers in route registration order. -/
def playerScopedHandlers : List (Env → Request → Response → Except String Response) :=
  [HandlePlayerInfo, HandlePlayerStats, HandlePlayerEquipment,
   HandlePlayerSkills, HandlePlayerSkillsFull, HandlePlayerQuests]

/-- Environment where the player exists, is in the world, and every
shaping collaborator returns the payload j. -/
def envAllOk (env : Env) (j : Json) : Env :=
  { env with
    findPlayerByName := fun _ => some { inWorld := true },
    getPlayerData := fun _ _ => Except.ok j,
    getPlayerStats := fun _ => Except.ok j,
    getPlayerEquipment := fun _ => Except.ok j,
    getPlayerSkills := fun _ => Except.ok j,
    getPlayerSkillsFull := fun _ => Except.ok j,
    getPlayerQuests := fun _ => Except.ok j }

/-- Concrete configuration fixture. -/
def cfgEx : Cfg :=
  { host := "0.0.0.0", port := 8085, allowedOrigin := "http://example.com" }

/-- Concrete benign environment fixture. -/
def envEx : Env :=
  { findPlayerByName := fun _ => none,
    getPlayerData := fun _ _ => Except.ok (Json.str "d"),
    getPlayerStats := fun _ => Except.ok (Json.str "d"),
    getPlayerEquipment := fun _ => Except.ok (Json.str "d"),
    getPlayerSkills := fun _ => Except.ok (Json.str "d"),
    getPlayerSkillsFull := fun _ => Except.ok (Json.str "d"),
    getPlayerQuests := fun _ => Except.ok (Json.str "d"),
    getServerData := Except.ok (Json.str "s"),
    getAllPlayersData := fun _ => Except.ok [],
    getUptime := Except.ok 5,
    hostSample := Except.error "no sample",
    now := 1700000000 }

/-- Fresh host-metrics static state at process start. -/
def hostSt0 : HostState :=
  { peakCpu := 0, peakMem := 0, prevTotal := 0, prevIdle := 0, firstCall := true }

/-- Concrete health request fixture. -/
def reqHealth : Request :=
  { method := "GET", path := "/api/health", params := [], matches1 := "" }

theorem sendJson_headers (res : Response) (j : Json) (s : Nat) :
    (SendJsonResponse res j s).headers = res.headers := rfl

theorem sendErr_headers (now : Int) (res : Response) (m : String) (s : Nat) :
    (SendErrorResponse now res m s).headers = res.headers := rfl

theorem runCatch_headers (res : Response) (x : Except String Response)
    (h : ∀ r, x = Except.ok r → r.headers = res.headers) :
    (runCatch res x).headers = res.headers := by
  cases x with
  | ok r => exact h r rfl
  | error e => rfl

theorem healthCheck_ok_headers (env : Env) (req : Request) (res r : Response)
    (h : HandleHealthCheck env req res = Except.ok r) : r.headers = res.headers := by
  simp only [HandleHealthCheck] at h
  repeat' split at h
  all_goals first
    | (cases h; rfl)
    | exact Except.noConfusion h

theorem serverInfo_ok_headers (env : Env) (req : Request) (res r : Response)
    (h : HandleServerInfo env req res = Except.ok r) : r.headers = res.headers := by
  simp only [HandleServerInfo] at h
  repeat' split at h
  all_goals first
    | (cases h; rfl)
    | exact Except.noConfusion h

theorem onlinePlayers_ok_headers (env : Env) (req : Request) (res r : Response)
    (h : HandleOnlinePlayers env req res = Except.ok r) : r.headers = res.headers := by
  simp only [HandleOnlinePlayers] at h
  repeat' split at h
  all_goals first
    | (cases h; rfl)
    | exact Except.noConfusion h

theorem playerInfo_ok_headers (env : Env) (req : Request) (res r : Response)
    (h : HandlePlayerInfo env req res = Except.ok r) : r.headers = res.headers := by
  simp only [HandlePlayerInfo] at h
  repeat' split at h
  all_goals first
    | (cases h; rfl)
    | exact Except.noConfusion h

theorem playerStats_ok_headers (env : Env) (req : Request) (res r : Response)
    (h : HandlePlayerStats env req res = Except.ok r) : r.headers = res.headers := by
  simp only [HandlePlayerStats] at h
  repeat' split at h
  all_goals first
    | (cases h; rfl)
    | exact Except.noConfusion h

theorem playerEquipment_ok_headers (env : Env) (req : Request) (res r : Response)
    (h : HandlePlayerEquipment env req res = Except.ok r) : r.headers = res.headers := by
  simp only [HandlePlayerEquipment] at h
  repeat' split at h
  all_goals first
    | (cases h; rfl)
    | exact Except.noConfusion h

theorem playerSkills_ok_headers (env : Env) (req : Request) (res r : Response)
    (h : HandlePlayerSkills env req res = Except.ok r) : r.headers = res.headers := by
  simp only [HandlePlayerSkills] at h
  repeat' split at h
  all_goals first
    | (cases h; rfl)
    | exact Except.noConfusion h

theorem playerSkillsFull_ok_headers (env : Env) (req : Request) (res r : Response)
    (h : HandlePlayerSkillsFull env req res = Except.ok r) : r.headers = res.headers := by
  simp only [HandlePlayerSkillsFull] at h
  repeat' split at h
  all_goals first
    | (cases h; rfl)
    | exact Except.noConfusion h

theorem playerQuests_ok_headers (env : Env) (req : Request) (res r : Response)
    (h : HandlePlayerQuests env req res = Except.ok r) : r.headers = res.headers := by
  simp only [HandlePlayerQuests] at h
  repeat' split at h
  all_goals first
    | (cases h; rfl)
    | exact Except.noConfusion h

theorem hostInfo_headers (st : HostState) (inp : Except String HostSample) (res : Response) :
    ((HandleHostInfo st inp res).2).headers = res.headers := by
  cases inp with
  | ok s => rfl
  | error e => rfl

/-- Claim C1, counterexample: on a plain GET to /api/health with the
configured origin http://example.com, the response carries the wildcard
origin and does not carry the configured origin, because the second call
to set_pre_routing_handler replaced the configured-origin hook. -/
theorem c1_origin_counterexample :
    ((processRequest cfgEx envEx hostSt0 reqHealth).2).headers.lookup
        "Access-Control-Allow-Origin" = some "*" ∧
    ("Access-Control-Allow-Origin", "http://example.com") ∉
      ((processRequest cfgEx envEx hostSt0 reqHealth).2).headers := by
  exact ⟨rfl, by decide⟩

/-- Claim C1 as amended: every HTTP response, on every path, method, and
on both success and failure, carries the three CORS headers
Access-Control-Allow-Origin, Access-Control-Allow-Methods and
Access-Control-Allow-Headers, but the origin header holds the wildcard
star from the surviving second pre-routing handler rather than the
configured origin; the configured origin is additionally appended only on
OPTIONS preflight responses. -/
theorem c1_cors_all_responses (cfg : Cfg) (env : Env) (st : HostState) (req : Request) :
    ∃ t, ((processRequest cfg env st req).2).headers =
      [("Access-Control-Allow-Origin", "*"),
       ("Access-Control-Allow-Methods", "GET, POST, PUT, DELETE, OPTIONS"),
       ("Access-Control-Allow-Headers", "Content-Type, Authorization")] ++ t := by
  have hres1 : preRoutingOf cfg emptyResponse =
      { status := 0,
        headers :=
          [("Access-Control-Allow-Origin", "*"),
           ("Access-Control-Allow-Methods", "GET, POST, PUT, DELETE, OPTIONS"),
           ("Access-Control-Allow-Headers", "Content-Type, Authorization")],
        contentType := none, body := none } := rfl
  simp only [processRequest, hres1]
  split
  · exact ⟨[("Access-Control-Allow-Origin", cfg.allowedOrigin),
            ("Access-Control-Allow-Methods", "GET, POST, PUT, DELETE, OPTIONS"),
            ("Access-Control-Allow-Headers", "Content-Type, Authorization, X-Requested-With"),
            ("Access-Control-Max-Age", "86400")], rfl⟩
  · split
    · rcases hroute : routeGet req.path with _ | ⟨tag, cap⟩
      · simp only [hroute]
        exact ⟨[], rfl⟩
      · simp only [hroute]
        refine ⟨[], ?_⟩
        rw [List.append_nil]
        cases tag
        case health =>
          exact runCatch_headers _ _ (fun r hr => healthCheck_ok_headers _ _ _ _ hr)
        case server =>
          exact runCatch_headers _ _ (fun r hr => serverInfo_ok_headers _ _ _ _ hr)
        case host =>
          exact hostInfo_headers _ _ _
        case players =>
          exact runCatch_headers _ _ (fun r hr => onlinePlayers_ok_headers _ _ _ _ hr)
        case playerInfo =>
          exact runCatch_headers _ _ (fun r hr => playerInfo_ok_headers _ _ _ _ hr)
        case playerStats =>
          exact runCatch_headers _ _ (fun r hr => playerStats_ok_headers _ _ _ _ hr)
        case playerEquipment =>
          exact runCatch_headers _ _ (fun r hr => playerEquipment_ok_headers _ _ _ _ hr)
        case playerSkills =>
          exact runCatch_headers _ _ (fun r hr => playerSkills_ok_headers _ _ _ _ hr)
        case playerSkillsFull =>
          exact runCatch_headers _ _ (fun r hr => playerSkillsFull_ok_headers _ _ _ _ hr)
        case playerQuests =>
          exact runCatch_headers _ _ (fun r hr => playerQuests_ok_headers _ _ _ _ hr)
    · exact ⟨[], rfl⟩

/-- Claim C2: Start called while already running returns false and changes
no state; otherwise (with a successful bind) it spawns the listener
thread, and for every configuration two Start calls in a row return true
then false, with IsRunning true after the first call. -/
theorem c2_start_twice (cfg : Cfg) (b : Bool) (t : Bool) :
    start cfg b { running := true, threadActive := t } =
      (false, { running := true, threadActive := t }) ∧
    (start cfg true { running := false, threadActive := t }).1 = true ∧
    IsRunning (start cfg true { running := false, threadActive := t }).2 = true ∧
    ((start cfg true { running := false, threadActive := t }).2).threadActive = true ∧
    (start cfg true (start cfg true { running := false, threadActive := t }).2).1 = false := by
  refine ⟨?_, rfl, rfl, rfl, rfl⟩
  simp [start]

/-- Claim C3: Stop is a no-op when the server is not running; when it is
running, Stop joins the listener thread and clears the running flag, so
that afterwards IsRunning is false and a subsequent Start (with a
successful bind) returns true. -/
theorem c3_stop_restart (cfg : Cfg) (t : Bool) :
    stop { running := false, threadActive := t } = { running := false, threadActive := t } ∧
    IsRunning (stop { running := true, threadActive := t }) = false ∧
    (stop { running := true, threadActive := t }).threadActive = false ∧
    (start cfg true (stop { running := true, threadActive := t })).1 = true := by
  exact ⟨rfl, rfl, rfl, rfl⟩

/-- Concrete request for GET /api/player/ with nothing after the slash. -/
def reqPlayerSlash : Request :=
  { method := "GET", path := "/api/player/", params := [], matches1 := "" }

/-- Claim C4, counterexample: GET /api/player/ does not match the player
route, whose capture regex requires a nonempty slash-free segment, so the
router answers its default 404 with an empty body instead of the claimed
400 with the name-required error. -/
theorem c4_empty_capture_counterexample :
    ((processRequest cfgEx envEx hostSt0 reqPlayerSlash).2).status = 404 ∧
    ¬ ((processRequest cfgEx envEx hostSt0 reqPlayerSlash).2).status = 400 ∧
    ((processRequest cfgEx envEx hostSt0 reqPlayerSlash).2).body = none := by
  exact ⟨rfl, by decide, rfl⟩

/-- Claim C4 as amended: every player-scoped endpoint handler answers 400
with error Player name is required when its capture is empty, 404 with
error Player not found or not online when the accessor returns no player
or the player is not in the world, and 200 with the payload of its
collaborator otherwise; however GET /api/player/ never reaches a handler:
the route regex requires a nonempty capture, so that request falls through
to the default 404. -/
theorem c4_player_endpoints (env : Env) (req : Request) (res : Response)
    (name : String) (j : Json)
    (H : Env → Request → Response → Except String Response)
    (hH : H ∈ playerScopedHandlers) (hname : name ≠ "") :
    H env { req with matches1 := "" } res =
      Except.ok (SendErrorResponse env.now res "Player name is required" 400) ∧
    H { env with findPlayerByName := fun _ => none } { req with matches1 := name } res =
      Except.ok (SendErrorResponse env.now res "Player not found or not online" 404) ∧
    H { env with findPlayerByName := fun _ => some { inWorld := false } }
        { req with matches1 := name } res =
      Except.ok (SendErrorResponse env.now res "Player not found or not online" 404) ∧
    H (envAllOk env j) { req with matches1 := name } res =
      Except.ok (SendJsonResponse res j 200) ∧
    routeGet "/api/player/" = none := by
  simp only [playerScopedHandlers, List.mem_cons, List.not_mem_nil, or_false] at hH
  rcases hH with rfl | rfl | rfl | rfl | rfl | rfl <;>
    refine ⟨rfl, ?_, ?_, ?_, rfl⟩ <;>
    simp [HandlePlayerInfo, HandlePlayerStats, HandlePlayerEquipment, HandlePlayerSkills,
          HandlePlayerSkillsFull, HandlePlayerQuests, envAllOk, hname]

/-- Witness for the amended claim C4, at the stats handler and name Bob. -/
theorem c4_player_endpoints_witness :
    HandlePlayerStats ∈ playerScopedHandlers ∧ "Bob" ≠ "" ∧
    (HandlePlayerStats envEx { reqHealth with matches1 := "" } emptyResponse =
      Except.ok (SendErrorResponse envEx.now emptyResponse "Player name is required" 400) ∧
    HandlePlayerStats { envEx with findPlayerByName := fun _ => none }
        { reqHealth with matches1 := "Bob" } emptyResponse =
      Except.ok (SendErrorResponse envEx.now emptyResponse "Player not found or not online" 404) ∧
    HandlePlayerStats { envEx with findPlayerByName := fun _ => some { inWorld := false } }
        { reqHealth with matches1 := "Bob" } emptyResponse =
      Except.ok (SendErrorResponse envEx.now emptyResponse "Player not found or not online" 404) ∧
    HandlePlayerStats (envAllOk envEx (Json.str "ok")) { reqHealth with matches1 := "Bob" }
        emptyResponse =
      Except.ok (SendJsonResponse emptyResponse (Json.str "ok") 200) ∧
    routeGet "/api/player/" = none) :=
  ⟨List.Mem.tail _ (List.Mem.head _), by decide,
   c4_player_endpoints envEx reqHealth emptyResponse "Bob" (Json.str "ok") HandlePlayerStats
     (List.Mem.tail _ (List.Mem.head _)) (by decide)⟩

theorem readCpu_peaks (st : HostState) (x : Option StatCounters) :
    ((readCpu st x).2).peakCpu = st.peakCpu ∧ ((readCpu st x).2).peakMem = st.peakMem := by
  cases x with
  | none => exact ⟨rfl, rfl⟩
  | some c =>
    simp only [readCpu, computeCpu]
    split <;> exact ⟨rfl, rfl⟩

theorem ifLtMax {α : Type} [LinearOrder α] (a b : α) : (if a < b then b else a) = max a b := by
  split
  · exact (max_eq_right (le_of_lt (by assumption))).symm
  · exact (max_eq_left (le_of_not_lt (by assumption))).symm

theorem stepHost_peakCpu (st : HostState) (s : HostSample) :
    (stepHost st s).peakCpu = max st.peakCpu (readCpu st s.stat).1 := by
  have h : (stepHost st s).peakCpu =
      if ((readCpu st s.stat).2).peakCpu < (readCpu st s.stat).1 then (readCpu st s.stat).1
      else ((readCpu st s.stat).2).peakCpu := rfl
  rw [h, (readCpu_peaks st s.stat).1, ifLtMax]

theorem stepHost_peakMem (st : HostState) (s : HostSample) :
    (stepHost st s).peakMem =
      max st.peakMem (u64sub (readMem s.meminfo).1 (readMem s.meminfo).2) := by
  have h : (stepHost st s).peakMem =
      if ((readCpu st s.stat).2).peakMem < u64sub (readMem s.meminfo).1 (readMem s.meminfo).2
      then u64sub (readMem s.meminfo).1 (readMem s.meminfo).2
      else ((readCpu st s.stat).2).peakMem := rfl
  rw [h, (readCpu_peaks st s.stat).2, ifLtMax]

theorem foldl_peakCpu_le (ss : List HostSample) (st : HostState) :
    st.peakCpu ≤ (List.foldl stepHost st ss).peakCpu := by
  induction ss generalizing st with
  | nil => exact le_refl _
  | cons s rest ih =>
    refine le_trans ?_ (ih (stepHost st s))
    rw [stepHost_peakCpu]
    exact le_max_left _ _

theorem foldl_peakMem_le (ss : List HostSample) (st : HostState) :
    st.peakMem ≤ (List.foldl stepHost st ss).peakMem := by
  induction ss generalizing st with
  | nil => exact le_refl _
  | cons s rest ih =>
    refine le_trans ?_ (ih (stepHost st s))
    rw [stepHost_peakMem]
    exact le_max_left _ _

/-- Claim C5: on every host-info sample the reported peaks equal the
maximum of the incoming peak and the current reading, the reported values
are the updated static peaks, the peaks never decrease across any
sequence of samples, and Start and Stop leave the static metrics state
untouched, so the peaks persist for the process lifetime. -/
theorem c5_peak_monotone (st : HostState) (s : HostSample) (res : Response)
    (ss : List HostSample) (cfg : Cfg) (b : Bool) (m : ModuleState) :
    (∃ c mem,
      ((sampleHost st s res).2).bodyLookup "current_cpu" = some (Json.rat c) ∧
      ((sampleHost st s res).2).bodyLookup "max_cpu" = some (Json.rat (max st.peakCpu c)) ∧
      ((sampleHost st s res).2).bodyLookup "current_mem" = some (Json.int (Int.ofNat mem)) ∧
      ((sampleHost st s res).2).bodyLookup "max_mem" =
        some (Json.int (Int.ofNat (max st.peakMem mem))) ∧
      ((sampleHost st s res).1).peakCpu = max st.peakCpu c ∧
      ((sampleHost st s res).1).peakMem = max st.peakMem mem) ∧
    (sampleHost st s res).1 = stepHost st s ∧
    st.peakCpu ≤ (List.foldl stepHost st ss).peakCpu ∧
    st.peakMem ≤ (List.foldl stepHost st ss).peakMem ∧
    ((startM cfg b m).2).hostMetrics = m.hostMetrics ∧
    (stopM m).hostMetrics = m.hostMetrics := by
  refine ⟨⟨(readCpu st s.stat).1, u64sub (readMem s.meminfo).1 (readMem s.meminfo).2,
      rfl, ?_, rfl, ?_, ?_, ?_⟩, rfl, foldl_peakCpu_le ss st, foldl_peakMem_le ss st, rfl, rfl⟩
  · have h : ((sampleHost st s res).2).bodyLookup "max_cpu" =
        some (Json.rat (if ((readCpu st s.stat).2).peakCpu < (readCpu st s.stat).1
          then (readCpu st s.stat).1 else ((readCpu st s.stat).2).peakCpu)) := rfl
    rw [h, (readCpu_peaks st s.stat).1, ifLtMax]
  · have h : ((sampleHost st s res).2).bodyLookup "max_mem" =
        some (Json.int (Int.ofNat
          (if ((readCpu st s.stat).2).peakMem < u64sub (readMem s.meminfo).1 (readMem s.meminfo).2
           then u64sub (readMem s.meminfo).1 (readMem s.meminfo).2
           else ((readCpu st s.stat).2).peakMem))) := rfl
    rw [h, (readCpu_peaks st s.stat).2, ifLtMax]
  · have h : ((sampleHost st s res).1).peakCpu =
        if ((readCpu st s.stat).2).peakCpu < (readCpu st s.stat).1 then (readCpu st s.stat).1
        else ((readCpu st s.stat).2).peakCpu := rfl
    rw [h, (readCpu_peaks st s.stat).1, ifLtMax]
  · have h : ((sampleHost st s res).1).peakMem =
        if ((readCpu st s.stat).2).peakMem < u64sub (readMem s.meminfo).1 (readMem s.meminfo).2
        then u64sub (readMem s.meminfo).1 (readMem s.meminfo).2
        else ((readCpu st s.stat).2).peakMem := rfl
    rw [h, (readCpu_peaks st s.stat).2, ifLtMax]

theorem u64sub_eq (a b : Nat) (hb : b ≤ a) (ha : a < U64) : u64sub a b = a - b := by
  unfold u64sub
  unfold U64 at ha ⊢
  omega

theorem roundAway_zero : roundAway 0 = 0 := by
  unfold roundAway
  rw [if_pos (le_refl (0 : ℚ)), zero_add]
  exact Int.floor_eq_zero_iff.mpr (by constructor <;> norm_num)

theorem round2_zero : round2 0 = 0 := by
  unfold round2
  rw [zero_mul, roundAway_zero]
  norm_num

/-- Claim C6: with a readable and parsed /proc/stat whose cumulative
counters have not wrapped below the stored previous sample, the reported
cpu utilization is 0 on the first sample, and on later samples it equals
one minus the idle delta over the total delta, times one hundred, rounded
to two decimal places, and 0 when the total delta is not positive. -/
theorem c6_cpu_delta (st : HostState) (s : HostSample) (res : Response) (c : StatCounters)
    (hs : s.stat = some c)
    (hsum : c.user + c.nice + c.system + c.idle + c.iowait + c.irq + c.softirq + c.steal < U64)
    (hpt : st.prevTotal ≤
      c.user + c.nice + c.system + c.idle + c.iowait + c.irq + c.softirq + c.steal)
    (hpi : st.prevIdle ≤ c.idle + c.iowait) :
    (st.firstCall = true →
      ((sampleHost st s res).2).bodyLookup "current_cpu" = some (Json.rat 0)) ∧
    (st.firstCall = false →
      ((sampleHost st s res).2).bodyLookup "current_cpu" =
        some (Json.rat
          (if 0 < (c.user + c.nice + c.system + c.idle + c.iowait + c.irq + c.softirq + c.steal)
                  - st.prevTotal then
            round2 ((1 -
              ((((c.idle + c.iowait) - st.prevIdle : Nat) : ℚ) /
               ((((c.user + c.nice + c.system + c.idle + c.iowait + c.irq + c.softirq + c.steal)
                  - st.prevTotal : Nat) : ℚ)))) * 100)
           else 0))) := by
  have hbody : ((sampleHost st s res).2).bodyLookup "current_cpu" =
      some (Json.rat (readCpu st s.stat).1) := rfl
  have hidleLt : c.idle + c.iowait < U64 := lt_of_le_of_lt (by omega) hsum
  have htot : (c.user + c.nice + c.system + c.idle + c.iowait + c.irq + c.softirq + c.steal)
      % U64 = c.user + c.nice + c.system + c.idle + c.iowait + c.irq + c.softirq + c.steal :=
    Nat.mod_eq_of_lt hsum
  have hidl : (c.idle + c.iowait) % U64 = c.idle + c.iowait := Nat.mod_eq_of_lt hidleLt
  constructor
  · intro hfc
    rw [hbody, hs]
    simp only [readCpu, computeCpu, hfc, if_true]
  · intro hfc
    rw [hbody, hs]
    simp only [readCpu, computeCpu, hfc, Bool.false_eq_true, if_false, htot, hidl,
      u64sub_eq _ _ hpt hsum, u64sub_eq _ _ hpi hidleLt]
    split
    · rfl
    · exact congrArg (fun q => some (Json.rat q)) round2_zero

/-- Concrete static state fixture for the C6 witness: not the first call. -/
def stW : HostState :=
  { peakCpu := 0, peakMem := 0, prevTotal := 10, prevIdle := 5, firstCall := false }

/-- Concrete stat counters fixture for the C6 witness. -/
def cW : StatCounters :=
  { user := 10, nice := 0, system := 2, idle := 7, iowait := 1, irq := 5, softirq := 3, steal := 2 }

/-- Concrete host sample fixture for the C6 witness. -/
def sW : HostSample :=
  { sysinfoUptime := some 100, meminfo := none, stat := some cW, now := 1700000000 }

/-- Witness for claim C6 at a concrete non-first sample. -/
theorem c6_cpu_delta_witness :
    sW.stat = some cW ∧
    cW.user + cW.nice + cW.system + cW.idle + cW.iowait + cW.irq + cW.softirq + cW.steal < U64 ∧
    stW.prevTotal ≤
      cW.user + cW.nice + cW.system + cW.idle + cW.iowait + cW.irq + cW.softirq + cW.steal ∧
    stW.prevIdle ≤ cW.idle + cW.iowait ∧
    ((stW.firstCall = true →
      ((sampleHost stW sW emptyResponse).2).bodyLookup "current_cpu" = some (Json.rat 0)) ∧
    (stW.firstCall = false →
      ((sampleHost stW sW emptyResponse).2).bodyLookup "current_cpu" =
        some (Json.rat
          (if 0 < (cW.user + cW.nice + cW.system + cW.idle + cW.iowait + cW.irq + cW.softirq
                   + cW.steal) - stW.prevTotal then
            round2 ((1 -
              ((((cW.idle + cW.iowait) - stW.prevIdle : Nat) : ℚ) /
               ((((cW.user + cW.nice + cW.system + cW.idle + cW.iowait + cW.irq + cW.softirq
                   + cW.steal) - stW.prevTotal : Nat) : ℚ)))) * 100)
           else 0)))) :=
  ⟨rfl, by decide, by decide, by decide,
   c6_cpu_delta stW sW emptyResponse cW rfl (by decide) (by decide) (by decide)⟩

/-- Environment whose player-data collaborator throws. -/
def envBoom : Env :=
  { envEx with
    findPlayerByName := fun _ => some { inWorld := true },
    getPlayerData := fun _ _ => Except.error "boom" }

/-- Concrete request for the player Bob. -/
def reqBob : Request :=
  { method := "GET", path := "/api/player/Bob", params := [], matches1 := "Bob" }

/-- Claim C7, counterexample: HandlePlayerInfo has no try/catch, so when
the player-data collaborator throws, the exception propagates out of the
handler instead of being degraded to a 500 JSON envelope there. -/
theorem c7_escape_counterexample :
    HandlePlayerInfo envBoom reqBob emptyResponse = Except.error "boom" := rfl

/-- Claim C7 as amended: only the server-info, players-list and host-info
handlers catch collaborator faults at the handler boundary and degrade
them to a 500 error/status envelope; the health check and the player
scoped handlers have no catch, so a collaborator exception propagates out
of the handler, and it is the HTTP library boundary that then turns it
into a bare 500 response without a JSON body, keeping the listener thread
alive. -/
theorem c7_fault_boundary (env : Env) (req : Request) (res : Response) (e : String)
    (st : HostState) (cfg : Cfg) (p : List (String × String)) :
    HandleServerInfo { env with getServerData := Except.error e } req res =
      Except.ok (SendJsonResponse res
        (Json.obj [("error", Json.str "Internal server error"), ("status", Json.int 500)]) 500) ∧
    HandleOnlinePlayers { env with getAllPlayersData := fun _ => Except.error e } req res =
      Except.ok (SendJsonResponse res
        (Json.obj [("error", Json.str "Internal server error"), ("status", Json.int 500)]) 500) ∧
    HandleHostInfo st (Except.error e) res =
      (st, SendJsonResponse res
        (Json.obj [("error", Json.str "Internal server error"), ("status", Json.int 500)]) 500) ∧
    HandleHealthCheck { env with getUptime := Except.error e } req res = Except.error e ∧
    HandlePlayerInfo
        { env with findPlayerByName := fun _ => some { inWorld := true },
                   getPlayerData := fun _ _ => Except.error e }
        { req with matches1 := "Bob" } res = Except.error e ∧
    HandlePlayerStats
        { env with findPlayerByName := fun _ => some { inWorld := true },
                   getPlayerStats := fun _ => Except.error e }
        { req with matches1 := "Bob" } res = Except.error e ∧
    HandlePlayerEquipment
        { env with findPlayerByName := fun _ => some { inWorld := true },
                   getPlayerEquipment := fun _ => Except.error e }
        { req with matches1 := "Bob" } res = Except.error e ∧
    HandlePlayerSkills
        { env with findPlayerByName := fun _ => some { inWorld := true },
                   getPlayerSkills := fun _ => Except.error e }
        { req with matches1 := "Bob" } res = Except.error e ∧
    HandlePlayerSkillsFull
        { env with findPlayerByName := fun _ => some { inWorld := true },
                   getPlayerSkillsFull := fun _ => Except.error e }
        { req with matches1 := "Bob" } res = Except.error e ∧
    HandlePlayerQuests
        { env with findPlayerByName := fun _ => some { inWorld := true },
                   getPlayerQuests := fun _ => Except.error e }
        { req with matches1 := "Bob" } res = Except.error e ∧
    ((processRequest cfg
        { env with findPlayerByName := fun _ => some { inWorld := true },
                   getPlayerStats := fun _ => Except.error e }
        st { method := "GET", path := "/api/player/Bob/stats", params := p,
             matches1 := "" }).2).status = 500 ∧
    ((processRequest cfg
        { env with findPlayerByName := fun _ => some { inWorld := true },
                   getPlayerStats := fun _ => Except.error e }
        st { method := "GET", path := "/api/player/Bob/stats", params := p,
             matches1 := "" }).2).body = none := by
  exact ⟨rfl, rfl, rfl, rfl, rfl, rfl, rfl, rfl, rfl, rfl, rfl, rfl⟩

/-- Claim C8: SendErrorResponse produces the error and timestamp body
with the given status and defaults to 400, while the host-info internal
fault path produces the error and numeric status body with HTTP status
500 and no timestamp field. -/
theorem c8_error_envelope (now : Int) (res resi : Response) (msg : String) (status : Nat)
    (st : HostState) (e : String) :
    (SendErrorResponse now res msg status).status = status ∧
    (SendErrorResponse now res msg status).body =
      some (Json.obj [("error", Json.str msg), ("timestamp", Json.int now)]) ∧
    SendErrorResponse now res msg = SendErrorResponse now res msg 400 ∧
    ((HandleHostInfo st (Except.error e) resi).2).status = 500 ∧
    ((HandleHostInfo st (Except.error e) resi).2).body =
      some (Json.obj [("error", Json.str "Internal server error"), ("status", Json.int 500)]) ∧
    ((HandleHostInfo st (Except.error e) resi).2).bodyLookup "timestamp" = none ∧
    ((HandleHostInfo st (Except.error e) resi).2).bodyLookup "status" = some (Json.int 500) := by
  exact ⟨rfl, rfl, rfl, rfl, rfl, rfl, rfl⟩

/-- Claim C9: the two optional query flags are parsed asymmetrically.
The players roster includes equipment exactly when the equipment
parameter is present with value equal to the string true, while the
player-info endpoint includes equipment exactly when the include
parameter is present and its value has equipment as a substring anywhere;
the concrete conjuncts exhibit the asymmetry. -/
theorem c9_query_flags (env : Env) (req : Request) (res : Response) :
    HandleOnlinePlayers { env with getAllPlayersData := fun b => Except.ok [Json.bool b] }
        req res =
      Except.ok (SendJsonResponse res
        (Json.obj [("count", Json.int (Int.ofNat 1)),
                   ("players", Json.arr [Json.bool
                     (has_param req "equipment" &&
                      (get_param_value req "equipment" == "true"))])]) 200) ∧
    HandlePlayerInfo
        { env with findPlayerByName := fun _ => some { inWorld := true },
                   getPlayerData := fun _ b => Except.ok (Json.bool b) }
        { req with matches1 := "Bob" } res =
      Except.ok (SendJsonResponse res
        (Json.bool (has_param req "include" &&
                    strContains (get_param_value req "include") "equipment")) 200) ∧
    (has_param { reqHealth with params := [("equipment", "True")] } "equipment" &&
      (get_param_value { reqHealth with params := [("equipment", "True")] } "equipment"
        == "true")) = false ∧
    (has_param { reqHealth with params := [("equipment", "true")] } "equipment" &&
      (get_param_value { reqHealth with params := [("equipment", "true")] } "equipment"
        == "true")) = true ∧
    (has_param { reqHealth with params := [("equipment", "xtruey")] } "equipment" &&
      (get_param_value { reqHealth with params := [("equipment", "xtruey")] } "equipment"
        == "true")) = false ∧
    (has_param { reqHealth with params := [("include", "stats,equipment,skills")] } "include" &&
      strContains
        (get_param_value { reqHealth with params := [("include", "stats,equipment,skills")] }
          "include") "equipment") = true ∧
    (has_param { reqHealth with params := [("include", "xequipmenty")] } "include" &&
      strContains
        (get_param_value { reqHealth with params := [("include", "xequipmenty")] } "include")
        "equipment") = true ∧
    (has_param { reqHealth with params := [("include", "equip")] } "include" &&
      strContains
        (get_param_value { reqHealth with params := [("include", "equip")] } "include")
        "equipment") = false := by
  exact ⟨rfl, rfl, by decide, by decide, by decide, by decide, by decide, by decide⟩

theorem u64sub_zero : u64sub 0 0 = 0 := by decide

/-- Claim C10: on the Linux path an unreadable /proc/meminfo or /proc/stat
is not a fault: the host-info handler still answers 200 with total_mem
and current_mem zero and current_cpu zero, leaving the static counters
untouched, and the 500 branch is reached exactly when an exception is
thrown. -/
theorem c10_proc_failures (st : HostState) (res : Response) (uo : Option Int) (n : Int)
    (s2 : HostSample) (e : String) :
    ((sampleHost st { sysinfoUptime := uo, meminfo := none, stat := none, now := n } res).2).status
      = 200 ∧
    ((sampleHost st { sysinfoUptime := uo, meminfo := none, stat := none, now := n }
        res).2).bodyLookup "total_mem" = some (Json.int (Int.ofNat 0)) ∧
    ((sampleHost st { sysinfoUptime := uo, meminfo := none, stat := none, now := n }
        res).2).bodyLookup "current_mem" = some (Json.int (Int.ofNat 0)) ∧
    ((sampleHost st { sysinfoUptime := uo, meminfo := none, stat := none, now := n }
        res).2).bodyLookup "current_cpu" = some (Json.rat 0) ∧
    ((sampleHost st { sysinfoUptime := uo, meminfo := none, stat := none, now := n }
        res).1).prevTotal = st.prevTotal ∧
    ((sampleHost st { sysinfoUptime := uo, meminfo := none, stat := none, now := n }
        res).1).prevIdle = st.prevIdle ∧
    ((sampleHost st { sysinfoUptime := uo, meminfo := none, stat := none, now := n }
        res).1).firstCall = st.firstCall ∧
    ((HandleHostInfo st (Except.ok s2) res).2).status = 200 ∧
    ((HandleHostInfo st (Except.error e) res).2).status = 500 := by
  refine ⟨rfl, rfl, ?_, rfl, rfl, rfl, rfl, rfl, rfl⟩
  have h : ((sampleHost st { sysinfoUptime := uo, meminfo := none, stat := none, now := n }
      res).2).bodyLookup "current_mem" = some (Json.int (Int.ofNat (u64sub 0 0))) := rfl
  rw [h, u64sub_zero]

end GameStateAPI
